import Mathlib

/-!
Shallow embedding of `iremoted.c` (version 2.0), a small macOS program that
listens for button events from the Apple Infrared Remote, prints each event
to standard output, and optionally forwards two button presses to Keynote as
slide-navigation Apple events.

Conventions of the embedding:
- `IOHIDElementCookie` is a 32-bit unsigned integer in the IOKit headers used
  by this program; cookies are modelled as `Nat`, and the C casts
  `(IOHIDElementCookie)number` (from a `long`) and `(UInt32)event.elementCookie`
  are modelled as reduction modulo 2 ^ 32.
- OS calls are nondeterministic from the program point of view; their outcomes
  are collected in explicit world records (`OSWorld`, `AEWorld`) and the
  program functions are deterministic functions of those records.
- `fprintf(stderr, ...)` is modelled by appending the message text to a list of
  stderr messages; the numeric detail that `print_errmsg_if_io_err` appends via
  `mach_error_string` is elided, the fixed message text is kept.
- `exit(code)` is modelled by the outcome `Outcome.exited code`; a run of
  `main` that returns normally is `Outcome.completed` (process status 0).
- `malloc` for the six-field cookie record is assumed to succeed (out-of-memory
  is not modelled).
-/

namespace Iremoted

/-- The two Apple event IDs the program can send to Keynote
(`slideForward = 'steF'`, `slideBackward = 'steB'` in the C source). -/
inductive AEEventID where
  | slideForward
  | slideBackward
deriving DecidableEq, Repr

/-- One dequeued HID event: the relevant fields of `IOHIDEventStruct`
(`elementCookie` and `value`). `value` is a signed 32-bit integer in C,
modelled as `Int`. -/
structure IOHIDEventStruct where
  elementCookie : Nat
  value : Int
deriving DecidableEq, Repr

/-- Lowercase hexadecimal digit string of a natural number (the digits that
`%lx` prints). -/
def hexStr (n : Nat) : String :=
  (Nat.toDigits 16 n).asString

/-- The C `printf` conversion `%#lx` (alternate-form hex): `0` prints as `0`,
a nonzero value prints with a `0x` prefix. -/
def altHex (n : Nat) : String :=
  if n = 0 then "0" else "0x" ++ hexStr n

/-- The line printed for one event by `QueueCallbackFunction`:
`printf("%#lx %s\n", (UInt32)event.elementCookie,
        (event.value == 0) ? "depressed" : "pressed")`.
The `(UInt32)` cast is reduction mod 2 ^ 32. The trailing newline is the line
separator and is not part of the modelled line. -/
def eventLine (e : IOHIDEventStruct) : String :=
  altHex (e.elementCookie % 2 ^ 32) ++ " " ++
    (if e.value = 0 then "depressed" else "pressed")

/-- The Keynote-forwarding decision made for one event inside
`QueueCallbackFunction`:
`if (event.value && driveKeynote) { if (cookie == buttonNextID) forward
 else if (cookie == buttonPreviousID) backward }`.
Returns the Apple event ID passed to `KeynoteChangeSlide`, or `none` when no
slide change is requested. -/
def keynoteAction (driveKeynote : Bool) (buttonNextID buttonPreviousID : Nat)
    (e : IOHIDEventStruct) : Option AEEventID :=
  if e.value ≠ 0 ∧ driveKeynote = true then
    if e.elementCookie = buttonNextID then some AEEventID.slideForward
    else if e.elementCookie = buttonPreviousID then some AEEventID.slideBackward
    else none
  else none

/-- `getNextEvent` on the queue: returns `(result, event, remaining queue)`.
An empty queue yields a nonzero result (`kIOReturnUnderrun` in IOKit) and no
event; otherwise result `0` and the front event. -/
def getNextEvent :
    List IOHIDEventStruct → Int × Option IOHIDEventStruct × List IOHIDEventStruct
  | [] => (1, none, [])
  | e :: rest => (0, some e, rest)

/-- What one invocation of the queue callback produces: the stdout lines, in
order, and the Apple event IDs forwarded to Keynote, in order. -/
structure CallbackOutput where
  lines : List String
  actions : List AEEventID
deriving DecidableEq, Repr

/-- `QueueCallbackFunction` as a function of the queue contents: the C
`while (!ret)` loop dequeues with `getNextEvent` until it returns nonzero
(empty queue), printing one line per event and conditionally forwarding a
slide change. Structural recursion on the queue mirrors the loop; the `[]`
case is the iteration where `getNextEvent` returns nonzero and the loop
exits. -/
def QueueCallbackFunction (driveKeynote : Bool)
    (buttonNextID buttonPreviousID : Nat) :
    List IOHIDEventStruct → CallbackOutput
  | [] => { lines := [], actions := [] }
  | e :: rest =>
    let out := QueueCallbackFunction driveKeynote buttonNextID buttonPreviousID rest
    { lines := eventLine e :: out.lines,
      actions :=
        match keynoteAction driveKeynote buttonNextID buttonPreviousID e with
        | some a => a :: out.actions
        | none => out.actions }

/-! ### Cookie resolution (`getHIDCookies`) -/

/-- IOKit HID usage-table constants used by the `switch` in `getHIDCookies`. -/
def kHIDPage_GenericDesktop : Int := 0x01

def kHIDUsage_GD_SystemAppMenu : Int := 0x85

def kHIDUsage_GD_SystemMenu : Int := 0x86

def kHIDUsage_GD_SystemMenuRight : Int := 0x87

def kHIDUsage_GD_SystemMenuLeft : Int := 0x88

def kHIDUsage_GD_SystemMenuUp : Int := 0x89

def kHIDUsage_GD_SystemMenuDown : Int := 0x8A

/-- The cast `(IOHIDElementCookie)number` from a C `long`: reduction of the
integer to an unsigned 32-bit value. -/
def intToCookie (n : Int) : Nat :=
  (n % (2 ^ 32 : Int)).toNat

/-- One element dictionary from `copyMatchingElements`, restricted to the three
keys `getHIDCookies` reads. A field is `none` when the loop body `continue`s on
that key: the key is absent, the value is not a `CFNumber`, or
`CFNumberGetValue` fails. -/
structure HIDElement where
  cookie : Option Int
  usage : Option Int
  usagePage : Option Int
deriving DecidableEq, Repr

/-- The six-field record `struct cookie_struct` of button cookies. -/
structure cookie_struct where
  gButtonCookie_SystemAppMenu : Nat
  gButtonCookie_SystemMenuSelect : Nat
  gButtonCookie_SystemMenuRight : Nat
  gButtonCookie_SystemMenuLeft : Nat
  gButtonCookie_SystemMenuUp : Nat
  gButtonCookie_SystemMenuDown : Nat
deriving DecidableEq, Repr

/-- The two process-wide cached cookie variables
(`IOHIDElementCookie buttonNextID = 0; IOHIDElementCookie buttonPreviousID = 0;`). -/
structure Globals where
  buttonNextID : Nat
  buttonPreviousID : Nat
deriving DecidableEq, Repr

/-- The record after `memset(cookies, 0, sizeof(*cookies))`. -/
def zeroCookies : cookie_struct :=
  ⟨0, 0, 0, 0, 0, 0⟩

/-- One iteration of the element loop in `getHIDCookies`: if the three number
fields parse, the usage page is Generic Desktop, and the usage is one of the
six cases of the `switch`, the corresponding record field (and, for the
Right/Left cases, the corresponding global) is overwritten with the element's
cookie; otherwise the iteration changes nothing. -/
def processElement (acc : cookie_struct × Globals) (el : HIDElement) :
    cookie_struct × Globals :=
  match el.cookie, el.usage, el.usagePage with
  | some n, some u, some p =>
    if p = kHIDPage_GenericDesktop then
      let ck := intToCookie n
      if u = kHIDUsage_GD_SystemAppMenu then
        ({ acc.1 with gButtonCookie_SystemAppMenu := ck }, acc.2)
      else if u = kHIDUsage_GD_SystemMenu then
        ({ acc.1 with gButtonCookie_SystemMenuSelect := ck }, acc.2)
      else if u = kHIDUsage_GD_SystemMenuRight then
        ({ acc.1 with gButtonCookie_SystemMenuRight := ck },
         { acc.2 with buttonNextID := ck })
      else if u = kHIDUsage_GD_SystemMenuLeft then
        ({ acc.1 with gButtonCookie_SystemMenuLeft := ck },
         { acc.2 with buttonPreviousID := ck })
      else if u = kHIDUsage_GD_SystemMenuUp then
        ({ acc.1 with gButtonCookie_SystemMenuUp := ck }, acc.2)
      else if u = kHIDUsage_GD_SystemMenuDown then
        ({ acc.1 with gButtonCookie_SystemMenuDown := ck }, acc.2)
      else acc
    else acc
  | _, _, _ => acc

/-- `getHIDCookies(handle)`: `none` models a null handle (`!handle || !(*handle)`),
in which case the zeroed record is returned before any element is examined;
`some elements` models a handle whose `copyMatchingElements` succeeds with the
given element array. The pair threads the process-wide globals, which the C
code mutates in the Right/Left switch cases. (The `malloc` failure and the
`copyMatchingElements` failure both `exit(1)` and are outside this function's
success behaviour.) -/
def getHIDCookies (handle : Option (List HIDElement)) (g : Globals) :
    cookie_struct × Globals :=
  match handle with
  | none => (zeroCookies, g)
  | some elements => elements.foldl processElement (zeroCookies, g)

/-- Whether an element passes all three parse guards, has usage page Generic
Desktop, and has the given usage: exactly the condition under which the loop
body of `getHIDCookies` stores its cookie for that usage. -/
def matchesUsage (u : Int) (el : HIDElement) : Bool :=
  match el.cookie, el.usage, el.usagePage with
  | some _, some u2, some p => p == kHIDPage_GenericDesktop && u2 == u
  | _, _, _ => false

/-- The cookie value an element stores when it matches (0 for an element with
no parsed cookie entry, a case `matchesUsage` excludes). -/
def elementCookieVal (el : HIDElement) : Nat :=
  match el.cookie with
  | some n => intToCookie n
  | none => 0

/-- The value a single cookie slot holds after the element loop, starting from
`i`: each element matching usage `u` overwrites the slot with its cookie. -/
def updUsage (u : Int) (acc : Nat) (el : HIDElement) : Nat :=
  if matchesUsage u el then elementCookieVal el else acc

/-- Folded form of `updUsage` over the whole element list. -/
def lastMatchCookie (u : Int) (l : List HIDElement) (i : Nat) : Nat :=
  l.foldl (updUsage u) i

/-! ### `KeynoteChangeSlide` -/

/-- Outcomes of the two Apple-event OS calls made by `KeynoteChangeSlide`:
the `OSStatus` results of `AEBuildAppleEvent` and `AESend` (0 = `noErr`). -/
structure AEWorld where
  buildErr : Int
  sendErr : Int
deriving DecidableEq, Repr

/-- Observable behaviour of one `KeynoteChangeSlide` call: the `OSStatus` it
returns, its stderr messages, whether it called `AESend`, and whether it
terminated the process (the C function contains no `exit` call, so this is
always `false`; the field makes that observable). -/
structure KeynoteResult where
  returnedErr : Int
  stderrMsgs : List String
  sentEvent : Bool
  terminated : Bool
deriving DecidableEq, Repr

/-- `KeynoteChangeSlide(eventID)`: build the Apple event; on build failure
print to stderr and return the error without sending; otherwise send, print to
stderr on send failure, and return the send result. -/
def KeynoteChangeSlide (w : AEWorld) (_eventID : AEEventID) : KeynoteResult :=
  if w.buildErr ≠ 0 then
    { returnedErr := w.buildErr,
      stderrMsgs :=
        ["Failed to build Apple event (error " ++ toString w.buildErr ++ ")."],
      sentEvent := false,
      terminated := false }
  else
    { returnedErr := w.sendErr,
      stderrMsgs :=
        if w.sendErr ≠ 0 then
          ["Failed to send Apple event (error " ++ toString w.sendErr ++ ")."]
        else [],
      sentEvent := true,
      terminated := false }

/-! ### Callback invocations over program state -/

/-- The process state visible to the event callback: the two cached globals,
accumulated stdout lines and forwarded actions. -/
structure ProgState where
  buttonNextID : Nat
  buttonPreviousID : Nat
  stdout : List String
  actions : List AEEventID
deriving DecidableEq, Repr

/-- One invocation of `QueueCallbackFunction` on a batch of queued events: it
reads the two globals, appends its printed lines to stdout and its forwarded
actions; the C callback body contains no assignment to `buttonNextID` or
`buttonPreviousID`. -/
def invokeCallback (driveKeynote : Bool) (s : ProgState)
    (q : List IOHIDEventStruct) : ProgState :=
  let out := QueueCallbackFunction driveKeynote s.buttonNextID s.buttonPreviousID q
  { s with stdout := s.stdout ++ out.lines, actions := s.actions ++ out.actions }

/-! ### Whole-run control flow (`setupAndRun`, `doRun`, `processQueue`) -/

/-- The setup/run/teardown steps named by the specification, at the
granularity of its linear-sequence description. `locateDevice` is
`IOServiceGetMatchingService`; `resolveCookies` is the `getHIDCookies` call;
`openDevice`/`closeDevice`/`releaseDevice` are `open`/`close`/`Release` on the
HID device interface; `registerCallback` is `setEventCallout` plus
`CFRunLoopAddSource` in `addQueueCallbacks`; `runEventLoop` is `CFRunLoopRun`.
(Queue-object bookkeeping — `create`, `addElement`, `start`, `stop`,
`dispose`, queue `Release` — and the `IOObjectRelease` of the io_service
handle are below this granularity and not traced.) -/
inductive Op where
  | locateDevice
  | resolveCookies
  | openDevice
  | registerCallback
  | runEventLoop
  | closeDevice
  | releaseDevice
deriving DecidableEq, Repr

/-- How the process ends: `exited c` models `exit(c)`; `completed` models
`main` returning 0 (process status 0). -/
inductive Outcome where
  | exited (code : Nat)
  | completed
deriving DecidableEq, Repr

/-- `EX_OSERR` from `sysexits.h`, the code passed to `exit` by
`print_errmsg_if_io_err` and `print_errmsg_if_err`. -/
def EX_OSERR : Nat := 71

/-- Outcomes of the OS calls made during one run of `setupAndRun`. A zero
`Int` field means the call succeeded; `hidServiceFound` is whether
`IOServiceGetMatchingService` returned a service, `allocQueueOk` whether
`allocQueue` returned a non-null queue. `openErrOuter` is the result of the
`open` call in `setupAndRun`, `openErrInner` of the one in `doRun`. -/
structure OSWorld where
  hidServiceFound : Bool
  getClassErr : Int
  plugInCreateErr : Int
  queryInterfaceErr : Int
  copyElementsErr : Int
  elements : List HIDElement
  releaseHIDErr : Int
  openErrOuter : Int
  openErrInner : Int
  allocQueueOk : Bool
  createAsyncSourceErr : Int
  setCalloutErr : Int
deriving DecidableEq, Repr

/-- Observable behaviour of one whole run: the trace of traced steps in
execution order, the stderr messages in order, and how the process ended. -/
structure RunResult where
  trace : List Op
  stderrMsgs : List String
  outcome : Outcome
deriving DecidableEq, Repr

/-- `processQueue`: on `allocQueue` failure print to stderr and return (no
exit); otherwise set up the queue, register the callback via
`addQueueCallbacks` (whose failures are returned as `false` and ignored by the
caller), `start` the queue and block in `CFRunLoopRun`. -/
def processQueueModel (w : OSWorld) : List Op × List String :=
  if w.allocQueueOk then
    ((if w.createAsyncSourceErr = 0 ∧ w.setCalloutErr = 0
      then [Op.registerCallback] else []) ++ [Op.runEventLoop], [])
  else
    ([], ["Failed to allocate event queue."])

/-- `doRun`: open the device interface (again), run `processQueue`, close if
its own open succeeded, and `Release` the interface. -/
def doRunModel (w : OSWorld) : List Op × List String :=
  let p := processQueueModel w
  (Op.openDevice :: p.1 ++
     (if w.openErrInner = 0 then [Op.closeDevice] else []) ++
     [Op.releaseDevice],
   p.2)

/-- `setupAndRun` followed by `main` returning 0: locate the device (exit 1
with a message if absent); `createHIDDeviceInterface` (class-name failure
exits `EX_OSERR`; plug-in creation failure returns silently leaving the
interface null; `QueryInterface` failure exits `EX_OSERR`); `getHIDCookies`
(null interface yields the zeroed record; element-copy failure exits 1);
`IOObjectRelease` of the service handle (failure exits `EX_OSERR`); exit 1
with "No HID." if the interface is null; `open`; `doRun`; close if the outer
open succeeded; `Release`; return 0. -/
def setupAndRunModel (w : OSWorld) : RunResult :=
  if w.hidServiceFound = false then
    { trace := [Op.locateDevice],
      stderrMsgs := ["Apple Infrared Remote not found."],
      outcome := Outcome.exited 1 }
  else if w.getClassErr ≠ 0 then
    { trace := [Op.locateDevice],
      stderrMsgs := ["Failed to get class name."],
      outcome := Outcome.exited EX_OSERR }
  else if w.plugInCreateErr = 0 ∧ w.queryInterfaceErr ≠ 0 then
    { trace := [Op.locateDevice],
      stderrMsgs := ["Failed to create device interface."],
      outcome := Outcome.exited EX_OSERR }
  else if w.plugInCreateErr = 0 ∧ w.copyElementsErr ≠ 0 then
    { trace := [Op.locateDevice, Op.resolveCookies],
      stderrMsgs := ["Failed to copy cookies."],
      outcome := Outcome.exited 1 }
  else if w.releaseHIDErr ≠ 0 then
    { trace := [Op.locateDevice, Op.resolveCookies],
      stderrMsgs := ["Failed to release HID."],
      outcome := Outcome.exited EX_OSERR }
  else if w.plugInCreateErr ≠ 0 then
    { trace := [Op.locateDevice, Op.resolveCookies],
      stderrMsgs := ["No HID."],
      outcome := Outcome.exited 1 }
  else
    let d := doRunModel w
    { trace := [Op.locateDevice, Op.resolveCookies, Op.openDevice] ++ d.1 ++
        (if w.openErrOuter = 0 then [Op.closeDevice] else []) ++
        [Op.releaseDevice],
      stderrMsgs := d.2,
      outcome := Outcome.completed }

/-- A run in which every OS call succeeds. -/
def worldAllOk : OSWorld :=
  { hidServiceFound := true
    getClassErr := 0
    plugInCreateErr := 0
    queryInterfaceErr := 0
    copyElementsErr := 0
    elements := []
    releaseHIDErr := 0
    openErrOuter := 0
    openErrInner := 0
    allocQueueOk := true
    createAsyncSourceErr := 0
    setCalloutErr := 0 }

/-- A run in which everything succeeds except `allocQueue`, which returns
null. -/
def worldQueueAllocFails : OSWorld :=
  { worldAllOk with allocQueueOk := false }

/-- A concrete element list carrying one well-formed element for each of the
six usages of the `switch` in `getHIDCookies`. -/
def elemsAllSix : List HIDElement :=
  [⟨some 1, some kHIDUsage_GD_SystemAppMenu, some kHIDPage_GenericDesktop⟩,
   ⟨some 2, some kHIDUsage_GD_SystemMenu, some kHIDPage_GenericDesktop⟩,
   ⟨some 3, some kHIDUsage_GD_SystemMenuRight, some kHIDPage_GenericDesktop⟩,
   ⟨some 4, some kHIDUsage_GD_SystemMenuLeft, some kHIDPage_GenericDesktop⟩,
   ⟨some 5, some kHIDUsage_GD_SystemMenuUp, some kHIDPage_GenericDesktop⟩,
   ⟨some 6, some kHIDUsage_GD_SystemMenuDown, some kHIDPage_GenericDesktop⟩]

/-! ## Helper lemmas -/

theorem lines_eq_map (d : Bool) (n p : Nat) (q : List IOHIDEventStruct) :
    (QueueCallbackFunction d n p q).lines = q.map eventLine := by
  induction q with
  | nil => rfl
  | cons e rest ih => simp [QueueCallbackFunction, ih]

theorem actions_eq_filterMap (d : Bool) (n p : Nat) (q : List IOHIDEventStruct) :
    (QueueCallbackFunction d n p q).actions =
      q.filterMap (keynoteAction d n p) := by
  induction q with
  | nil => rfl
  | cons e rest ih =>
    simp only [QueueCallbackFunction, List.filterMap_cons]
    cases h : keynoteAction d n p e <;> simp [h, ih]

/-! ## Claim theorems -/

/-- C1: for every event dequeued by the queue callback, exactly one line goes
to standard output (the callback emits the lines `q.map eventLine`, one per
event, in order), and each line has the form `<identifier-in-hex> <label>`
where the identifier is the element cookie in hex and the label is
`depressed` exactly when the event value is 0, `pressed` otherwise. -/
theorem callback_prints_one_line_per_event (d : Bool) (n p : Nat)
    (q : List IOHIDEventStruct) :
    (QueueCallbackFunction d n p q).lines = q.map eventLine ∧
    ∀ e : IOHIDEventStruct, e.elementCookie < 2 ^ 32 →
      ∃ label, eventLine e = altHex e.elementCookie ++ " " ++ label ∧
        (label = "depressed" ↔ e.value = 0) ∧
        (label = "pressed" ↔ e.value ≠ 0) := by
  refine ⟨lines_eq_map d n p q, ?_⟩
  intro e he
  refine ⟨if e.value = 0 then "depressed" else "pressed", ?_, ?_, ?_⟩
  · unfold eventLine
    rw [Nat.mod_eq_of_lt he]
  · by_cases h : e.value = 0 <;> simp [h]
  · by_cases h : e.value = 0 <;> simp [h]

/-- C1 witness at the concrete event with cookie 31 and value 1. -/
theorem callback_prints_one_line_per_event_witness :
    (QueueCallbackFunction false 0 0 [⟨31, 1⟩]).lines =
      [(⟨31, 1⟩ : IOHIDEventStruct)].map eventLine ∧
    ∃ label, eventLine ⟨31, 1⟩ = altHex 31 ++ " " ++ label ∧
      (label = "depressed" ↔ (1 : Int) = 0) ∧
      (label = "pressed" ↔ (1 : Int) ≠ 0) := by
  have h := callback_prints_one_line_per_event false 0 0 [⟨31, 1⟩]
  exact ⟨h.1, h.2 ⟨31, 1⟩ (by norm_num)⟩

/-- C2: a slide-navigation Apple event is forwarded for a dequeued event iff
the Keynote toggle is on, the value is nonzero, and the cookie equals one of
the two cached identifiers; the `buttonNextID` branch yields the forward
action and the `buttonPreviousID` branch the backward action. -/
theorem keynote_forwarding_characterization (d : Bool) (n p : Nat)
    (e : IOHIDEventStruct) (q : List IOHIDEventStruct) :
    (QueueCallbackFunction d n p q).actions =
      q.filterMap (keynoteAction d n p) ∧
    ((keynoteAction d n p e).isSome = true ↔
      d = true ∧ e.value ≠ 0 ∧ (e.elementCookie = n ∨ e.elementCookie = p)) ∧
    (keynoteAction d n p e = some AEEventID.slideForward ↔
      d = true ∧ e.value ≠ 0 ∧ e.elementCookie = n) ∧
    (keynoteAction d n p e = some AEEventID.slideBackward ↔
      d = true ∧ e.value ≠ 0 ∧ e.elementCookie ≠ n ∧ e.elementCookie = p) := by
  refine ⟨actions_eq_filterMap d n p q, ?_, ?_, ?_⟩ <;>
    (cases d with
     | false => simp [keynoteAction]
     | true =>
       by_cases hv : e.value = 0
       · simp [keynoteAction, hv]
       · by_cases hn : e.elementCookie = n
         · subst hn
           simp [keynoteAction, hv]
         · by_cases hp : e.elementCookie = p
           · subst hp
             simp [keynoteAction, hv, hn]
           · simp [keynoteAction, hv, hn, hp])

/-- C2 witness: toggle on, next id 3, previous id 4, a press on cookie 3. -/
theorem keynote_forwarding_characterization_witness :
    (QueueCallbackFunction true 3 4 [⟨3, 1⟩]).actions =
      [(⟨3, 1⟩ : IOHIDEventStruct)].filterMap (keynoteAction true 3 4) ∧
    ((keynoteAction true 3 4 ⟨3, 1⟩).isSome = true ↔
      true = true ∧ (1 : Int) ≠ 0 ∧ ((3 : Nat) = 3 ∨ (3 : Nat) = 4)) ∧
    (keynoteAction true 3 4 ⟨3, 1⟩ = some AEEventID.slideForward ↔
      true = true ∧ (1 : Int) ≠ 0 ∧ (3 : Nat) = 3) ∧
    (keynoteAction true 3 4 ⟨3, 1⟩ = some AEEventID.slideBackward ↔
      true = true ∧ (1 : Int) ≠ 0 ∧ (3 : Nat) ≠ 3 ∧ (3 : Nat) = 4) :=
  keynote_forwarding_characterization true 3 4 ⟨3, 1⟩ [⟨3, 1⟩]

/-- C8: each callback invocation drains the queue — it emits one line per
queued event and the filtered actions for all of them, `getNextEvent` returns
a nonzero result exactly on the empty queue, and the loop iteration on the
empty queue produces nothing (the loop exits). Totality of
`QueueCallbackFunction` on any finite queue is termination. -/
theorem callback_drains_queue (d : Bool) (n p : Nat)
    (q : List IOHIDEventStruct) :
    (QueueCallbackFunction d n p q).lines = q.map eventLine ∧
    (QueueCallbackFunction d n p q).actions =
      q.filterMap (keynoteAction d n p) ∧
    (∀ q2 : List IOHIDEventStruct, (getNextEvent q2).1 ≠ 0 ↔ q2 = []) ∧
    QueueCallbackFunction d n p [] = { lines := [], actions := [] } := by
  refine ⟨lines_eq_map d n p q, actions_eq_filterMap d n p q, ?_, rfl⟩
  intro q2
  cases q2 <;> simp [getNextEvent]

/-- C8 witness at a concrete two-event queue. -/
theorem callback_drains_queue_witness :
    (QueueCallbackFunction true 3 4 [⟨3, 1⟩, ⟨5, 0⟩]).lines =
      [(⟨3, 1⟩ : IOHIDEventStruct), ⟨5, 0⟩].map eventLine ∧
    ((getNextEvent ([] : List IOHIDEventStruct)).1 ≠ 0 ↔
      ([] : List IOHIDEventStruct) = []) ∧
    ((getNextEvent [(⟨3, 1⟩ : IOHIDEventStruct)]).1 ≠ 0 ↔
      [(⟨3, 1⟩ : IOHIDEventStruct)] = []) := by
  have h := callback_drains_queue true 3 4 [⟨3, 1⟩, ⟨5, 0⟩]
  exact ⟨h.1, h.2.2.1 [], h.2.2.1 [⟨3, 1⟩]⟩

/-- C9: when both cached identifiers are equal (for instance both unresolved
at 0) and a press event carries that cookie, only the forward slide action can
be requested: the `buttonNextID` comparison precedes the `buttonPreviousID`
one, so the backward action is never produced. -/
theorem forward_precedes_backward (d : Bool) (n p : Nat)
    (e : IOHIDEventStruct) (hnp : n = p) (hc : e.elementCookie = n) :
    keynoteAction d n p e ≠ some AEEventID.slideBackward ∧
    (d = true → e.value ≠ 0 →
      keynoteAction d n p e = some AEEventID.slideForward) := by
  subst hnp
  constructor
  · unfold keynoteAction
    split
    · simp [hc]
    · simp
  · intro hd hv
    simp [keynoteAction, hc, hv, hd]

/-- C9 witness: both cached ids zero, press event with cookie zero. -/
theorem forward_precedes_backward_witness :
    keynoteAction true 0 0 ⟨0, 1⟩ ≠ some AEEventID.slideBackward ∧
    keynoteAction true 0 0 ⟨0, 1⟩ = some AEEventID.slideForward := by
  have h := forward_precedes_backward true 0 0 ⟨0, 1⟩ rfl rfl
  exact ⟨h.1, h.2 rfl (by norm_num)⟩

/-- C10: when `AEBuildAppleEvent` fails, `KeynoteChangeSlide` returns that
error, reports it to standard error, and does not call `AESend`; and no
`KeynoteChangeSlide` call ever terminates the process. -/
theorem keynote_build_failure_no_send (w : AEWorld) (evId : AEEventID)
    (hb : w.buildErr ≠ 0) :
    (KeynoteChangeSlide w evId).returnedErr = w.buildErr ∧
    (KeynoteChangeSlide w evId).sentEvent = false ∧
    (KeynoteChangeSlide w evId).stderrMsgs ≠ [] ∧
    (∀ (w2 : AEWorld) (evId2 : AEEventID),
      (KeynoteChangeSlide w2 evId2).terminated = false) := by
  refine ⟨?_, ?_, ?_, ?_⟩
  · simp [KeynoteChangeSlide, hb]
  · simp [KeynoteChangeSlide, hb]
  · simp [KeynoteChangeSlide, hb]
  · intro w2 evId2
    unfold KeynoteChangeSlide
    split <;> rfl

/-- C10 witness: build error 1. -/
theorem keynote_build_failure_no_send_witness :
    (KeynoteChangeSlide ⟨1, 0⟩ AEEventID.slideForward).returnedErr = 1 ∧
    (KeynoteChangeSlide ⟨1, 0⟩ AEEventID.slideForward).sentEvent = false ∧
    (KeynoteChangeSlide ⟨1, 0⟩ AEEventID.slideForward).stderrMsgs ≠ [] ∧
    (KeynoteChangeSlide ⟨0, 0⟩ AEEventID.slideBackward).terminated = false := by
  have h := keynote_build_failure_no_send ⟨1, 0⟩ AEEventID.slideForward
    (by norm_num)
  exact ⟨h.1, h.2.1, h.2.2.1, h.2.2.2 ⟨0, 0⟩ AEEventID.slideBackward⟩

/-- C7: the two cached identifiers are not modified by the event callback: a
single invocation and any sequence of invocations leave `buttonNextID` and
`buttonPreviousID` exactly as startup cookie resolution set them. -/
theorem globals_unchanged_by_callback (d : Bool) (s : ProgState)
    (q : List IOHIDEventStruct) (batches : List (List IOHIDEventStruct)) :
    ((invokeCallback d s q).buttonNextID = s.buttonNextID ∧
     (invokeCallback d s q).buttonPreviousID = s.buttonPreviousID) ∧
    ((batches.foldl (invokeCallback d) s).buttonNextID = s.buttonNextID ∧
     (batches.foldl (invokeCallback d) s).buttonPreviousID =
       s.buttonPreviousID) := by
  refine ⟨⟨rfl, rfl⟩, ?_⟩
  induction batches generalizing s with
  | nil => exact ⟨rfl, rfl⟩
  | cons b t ih =>
    have h := ih (invokeCallback d s b)
    simp only [List.foldl_cons]
    exact ⟨h.1.trans rfl, h.2.trans rfl⟩

/-! ## Cookie-resolution lemmas -/

theorem processElement_eq (acc : cookie_struct × Globals) (el : HIDElement) :
    processElement acc el =
      (⟨updUsage kHIDUsage_GD_SystemAppMenu
          acc.1.gButtonCookie_SystemAppMenu el,
        updUsage kHIDUsage_GD_SystemMenu
          acc.1.gButtonCookie_SystemMenuSelect el,
        updUsage kHIDUsage_GD_SystemMenuRight
          acc.1.gButtonCookie_SystemMenuRight el,
        updUsage kHIDUsage_GD_SystemMenuLeft
          acc.1.gButtonCookie_SystemMenuLeft el,
        updUsage kHIDUsage_GD_SystemMenuUp
          acc.1.gButtonCookie_SystemMenuUp el,
        updUsage kHIDUsage_GD_SystemMenuDown
          acc.1.gButtonCookie_SystemMenuDown el⟩,
       ⟨updUsage kHIDUsage_GD_SystemMenuRight acc.2.buttonNextID el,
        updUsage kHIDUsage_GD_SystemMenuLeft acc.2.buttonPreviousID el⟩) := by
  obtain ⟨⟨a1, a2, a3, a4, a5, a6⟩, ⟨g1, g2⟩⟩ := acc
  rcases el with ⟨ck, u, pg⟩
  cases ck with
  | none => cases u <;> cases pg <;> rfl
  | some n =>
    cases u with
    | none => cases pg <;> rfl
    | some uv =>
      cases pg with
      | none => rfl
      | some pgv =>
        by_cases hpg : pgv = kHIDPage_GenericDesktop
        case neg =>
          simp [processElement, updUsage, matchesUsage, hpg]
        case pos =>
          subst hpg
          by_cases h1 : uv = kHIDUsage_GD_SystemAppMenu
          · subst h1
            simp [processElement, updUsage, matchesUsage, elementCookieVal,
              kHIDPage_GenericDesktop, kHIDUsage_GD_SystemAppMenu,
              kHIDUsage_GD_SystemMenu, kHIDUsage_GD_SystemMenuRight,
              kHIDUsage_GD_SystemMenuLeft, kHIDUsage_GD_SystemMenuUp,
              kHIDUsage_GD_SystemMenuDown]
          · by_cases h2 : uv = kHIDUsage_GD_SystemMenu
            · subst h2
              simp [processElement, updUsage, matchesUsage, elementCookieVal,
                kHIDPage_GenericDesktop, kHIDUsage_GD_SystemAppMenu,
                kHIDUsage_GD_SystemMenu, kHIDUsage_GD_SystemMenuRight,
                kHIDUsage_GD_SystemMenuLeft, kHIDUsage_GD_SystemMenuUp,
                kHIDUsage_GD_SystemMenuDown]
            · by_cases h3 : uv = kHIDUsage_GD_SystemMenuRight
              · subst h3
                simp [processElement, updUsage, matchesUsage, elementCookieVal,
                  kHIDPage_GenericDesktop, kHIDUsage_GD_SystemAppMenu,
                  kHIDUsage_GD_SystemMenu, kHIDUsage_GD_SystemMenuRight,
                  kHIDUsage_GD_SystemMenuLeft, kHIDUsage_GD_SystemMenuUp,
                  kHIDUsage_GD_SystemMenuDown]
              · by_cases h4 : uv = kHIDUsage_GD_SystemMenuLeft
                · subst h4
                  simp [processElement, updUsage, matchesUsage,
                    elementCookieVal, kHIDPage_GenericDesktop,
                    kHIDUsage_GD_SystemAppMenu, kHIDUsage_GD_SystemMenu,
                    kHIDUsage_GD_SystemMenuRight, kHIDUsage_GD_SystemMenuLeft,
                    kHIDUsage_GD_SystemMenuUp, kHIDUsage_GD_SystemMenuDown]
                · by_cases h5 : uv = kHIDUsage_GD_SystemMenuUp
                  · subst h5
                    simp [processElement, updUsage, matchesUsage,
                      elementCookieVal, kHIDPage_GenericDesktop,
                      kHIDUsage_GD_SystemAppMenu, kHIDUsage_GD_SystemMenu,
                      kHIDUsage_GD_SystemMenuRight,
                      kHIDUsage_GD_SystemMenuLeft, kHIDUsage_GD_SystemMenuUp,
                      kHIDUsage_GD_SystemMenuDown]
                  · by_cases h6 : uv = kHIDUsage_GD_SystemMenuDown
                    · subst h6
                      simp [processElement, updUsage, matchesUsage,
                        elementCookieVal, kHIDPage_GenericDesktop,
                        kHIDUsage_GD_SystemAppMenu, kHIDUsage_GD_SystemMenu,
                        kHIDUsage_GD_SystemMenuRight,
                        kHIDUsage_GD_SystemMenuLeft, kHIDUsage_GD_SystemMenuUp,
                        kHIDUsage_GD_SystemMenuDown]
                    · simp [processElement, updUsage, matchesUsage,
                        h1, h2, h3, h4, h5, h6]

theorem foldl_processElement (l : List HIDElement) (c : cookie_struct)
    (g : Globals) :
    l.foldl processElement (c, g) =
      (⟨lastMatchCookie kHIDUsage_GD_SystemAppMenu l
          c.gButtonCookie_SystemAppMenu,
        lastMatchCookie kHIDUsage_GD_SystemMenu l
          c.gButtonCookie_SystemMenuSelect,
        lastMatchCookie kHIDUsage_GD_SystemMenuRight l
          c.gButtonCookie_SystemMenuRight,
        lastMatchCookie kHIDUsage_GD_SystemMenuLeft l
          c.gButtonCookie_SystemMenuLeft,
        lastMatchCookie kHIDUsage_GD_SystemMenuUp l
          c.gButtonCookie_SystemMenuUp,
        lastMatchCookie kHIDUsage_GD_SystemMenuDown l
          c.gButtonCookie_SystemMenuDown⟩,
       ⟨lastMatchCookie kHIDUsage_GD_SystemMenuRight l g.buttonNextID,
        lastMatchCookie kHIDUsage_GD_SystemMenuLeft l g.buttonPreviousID⟩) := by
  induction l generalizing c g with
  | nil => rfl
  | cons el t ih =>
    rw [List.foldl_cons, processElement_eq, ih]
    rfl

theorem getHIDCookies_some_eq (l : List HIDElement) (g : Globals) :
    getHIDCookies (some l) g =
      (⟨lastMatchCookie kHIDUsage_GD_SystemAppMenu l 0,
        lastMatchCookie kHIDUsage_GD_SystemMenu l 0,
        lastMatchCookie kHIDUsage_GD_SystemMenuRight l 0,
        lastMatchCookie kHIDUsage_GD_SystemMenuLeft l 0,
        lastMatchCookie kHIDUsage_GD_SystemMenuUp l 0,
        lastMatchCookie kHIDUsage_GD_SystemMenuDown l 0⟩,
       ⟨lastMatchCookie kHIDUsage_GD_SystemMenuRight l g.buttonNextID,
        lastMatchCookie kHIDUsage_GD_SystemMenuLeft l g.buttonPreviousID⟩) :=
  foldl_processElement l zeroCookies g

theorem lastMatchCookie_eq_getLast (u : Int) (l : List HIDElement) (i : Nat) :
    lastMatchCookie u l i =
      ((l.filter (matchesUsage u)).getLast?).elim i elementCookieVal := by
  induction l generalizing i with
  | nil => rfl
  | cons el t ih =>
    rw [show lastMatchCookie u (el :: t) i =
          lastMatchCookie u t (updUsage u i el) from rfl, ih]
    by_cases h : matchesUsage u el
    · have hupd : updUsage u i el = elementCookieVal el := by
        simp [updUsage, h]
      rw [hupd, List.filter_cons_of_pos h]
      cases hf : t.filter (matchesUsage u) with
      | nil => rfl
      | cons x xs =>
        rw [List.getLast?_cons_cons]
        cases hx : (x :: xs).getLast? with
        | none => simp at hx
        | some a => rfl
    · have hupd : updUsage u i el = i := by
        simp [updUsage, h]
      rw [hupd, List.filter_cons_of_neg (by simpa using h)]

theorem mem_of_getLast_eq {α : Type} {l : List α} {a : α}
    (h : l.getLast? = some a) : a ∈ l := by
  have h2 : a ∈ l.getLast? := Option.mem_def.mpr h
  obtain ⟨hne, heq⟩ := List.mem_getLast?_eq_getLast h2
  exact heq ▸ List.getLast_mem hne

theorem lastMatch_ne_zero_exists (u : Int) (l : List HIDElement)
    (h : lastMatchCookie u l 0 ≠ 0) :
    ∃ el ∈ l, matchesUsage u el = true := by
  rw [lastMatchCookie_eq_getLast] at h
  cases hf : (l.filter (matchesUsage u)).getLast? with
  | none => rw [hf] at h; simp at h
  | some el =>
    have hmem := mem_of_getLast_eq hf
    exact ⟨el, List.mem_of_mem_filter hmem, List.of_mem_filter hmem⟩

theorem matchesUsage_true_iff (u : Int) (el : HIDElement) :
    matchesUsage u el = true ↔
      (∃ n, el.cookie = some n) ∧ el.usage = some u ∧
        el.usagePage = some kHIDPage_GenericDesktop := by
  rcases el with ⟨c, u2, pg⟩
  cases c <;> cases u2 <;> cases pg <;> (simp [matchesUsage]; try tauto)

/-- C5: in the record returned by `getHIDCookies`, every one of the six button
fields that is nonzero comes from an element of the device element list with
usage page Generic Desktop and that field's usage; and a null device handle
yields the all-zero record (zero meaning unresolved). -/
theorem cookie_fields_zero_unless_matched :
    (∀ g : Globals, getHIDCookies none g = (zeroCookies, g)) ∧
    ∀ l : List HIDElement,
      ((getHIDCookies (some l) ⟨0, 0⟩).1.gButtonCookie_SystemAppMenu ≠ 0 →
        ∃ el ∈ l, el.usage = some kHIDUsage_GD_SystemAppMenu ∧
          el.usagePage = some kHIDPage_GenericDesktop) ∧
      ((getHIDCookies (some l) ⟨0, 0⟩).1.gButtonCookie_SystemMenuSelect ≠ 0 →
        ∃ el ∈ l, el.usage = some kHIDUsage_GD_SystemMenu ∧
          el.usagePage = some kHIDPage_GenericDesktop) ∧
      ((getHIDCookies (some l) ⟨0, 0⟩).1.gButtonCookie_SystemMenuRight ≠ 0 →
        ∃ el ∈ l, el.usage = some kHIDUsage_GD_SystemMenuRight ∧
          el.usagePage = some kHIDPage_GenericDesktop) ∧
      ((getHIDCookies (some l) ⟨0, 0⟩).1.gButtonCookie_SystemMenuLeft ≠ 0 →
        ∃ el ∈ l, el.usage = some kHIDUsage_GD_SystemMenuLeft ∧
          el.usagePage = some kHIDPage_GenericDesktop) ∧
      ((getHIDCookies (some l) ⟨0, 0⟩).1.gButtonCookie_SystemMenuUp ≠ 0 →
        ∃ el ∈ l, el.usage = some kHIDUsage_GD_SystemMenuUp ∧
          el.usagePage = some kHIDPage_GenericDesktop) ∧
      ((getHIDCookies (some l) ⟨0, 0⟩).1.gButtonCookie_SystemMenuDown ≠ 0 →
        ∃ el ∈ l, el.usage = some kHIDUsage_GD_SystemMenuDown ∧
          el.usagePage = some kHIDPage_GenericDesktop) := by
  refine ⟨fun g => rfl, ?_⟩
  intro l
  have key : ∀ u : Int, lastMatchCookie u l 0 ≠ 0 →
      ∃ el ∈ l, el.usage = some u ∧
        el.usagePage = some kHIDPage_GenericDesktop := by
    intro u h
    obtain ⟨el, hmem, hm⟩ := lastMatch_ne_zero_exists u l h
    have h2 := (matchesUsage_true_iff u el).mp hm
    exact ⟨el, hmem, h2.2.1, h2.2.2⟩
  rw [getHIDCookies_some_eq]
  exact ⟨key _, key _, key _, key _, key _, key _⟩

/-- C5 witness: the null-handle case at nonzero globals, and, on an element
list with one well-formed element per usage, every field is nonzero and the
matching elements exist. -/
theorem cookie_fields_zero_unless_matched_witness :
    getHIDCookies none ⟨7, 8⟩ = (zeroCookies, ⟨7, 8⟩) ∧
    (∃ el ∈ elemsAllSix, el.usage = some kHIDUsage_GD_SystemAppMenu ∧
      el.usagePage = some kHIDPage_GenericDesktop) ∧
    (∃ el ∈ elemsAllSix, el.usage = some kHIDUsage_GD_SystemMenu ∧
      el.usagePage = some kHIDPage_GenericDesktop) ∧
    (∃ el ∈ elemsAllSix, el.usage = some kHIDUsage_GD_SystemMenuRight ∧
      el.usagePage = some kHIDPage_GenericDesktop) ∧
    (∃ el ∈ elemsAllSix, el.usage = some kHIDUsage_GD_SystemMenuLeft ∧
      el.usagePage = some kHIDPage_GenericDesktop) ∧
    (∃ el ∈ elemsAllSix, el.usage = some kHIDUsage_GD_SystemMenuUp ∧
      el.usagePage = some kHIDPage_GenericDesktop) ∧
    (∃ el ∈ elemsAllSix, el.usage = some kHIDUsage_GD_SystemMenuDown ∧
      el.usagePage = some kHIDPage_GenericDesktop) := by
  have h := cookie_fields_zero_unless_matched
  have h6 := h.2 elemsAllSix
  exact ⟨h.1 ⟨7, 8⟩, h6.1 (by decide), h6.2.1 (by decide),
    h6.2.2.1 (by decide), h6.2.2.2.1 (by decide), h6.2.2.2.2.1 (by decide),
    h6.2.2.2.2.2 (by decide)⟩

/-- C6: with the globals initially zero (their initializers), after
`getHIDCookies` the cached `buttonNextID` equals the record field for
SystemMenuRight and `buttonPreviousID` the field for SystemMenuLeft, and each
of those fields is the cookie of the last matching element of the list, or 0
when no element matches. -/
theorem cached_globals_match_record (l : List HIDElement) :
    (getHIDCookies (some l) ⟨0, 0⟩).2.buttonNextID =
      (getHIDCookies (some l) ⟨0, 0⟩).1.gButtonCookie_SystemMenuRight ∧
    (getHIDCookies (some l) ⟨0, 0⟩).2.buttonPreviousID =
      (getHIDCookies (some l) ⟨0, 0⟩).1.gButtonCookie_SystemMenuLeft ∧
    (getHIDCookies (some l) ⟨0, 0⟩).1.gButtonCookie_SystemMenuRight =
      ((l.filter (matchesUsage kHIDUsage_GD_SystemMenuRight)).getLast?).elim 0
        elementCookieVal ∧
    (getHIDCookies (some l) ⟨0, 0⟩).1.gButtonCookie_SystemMenuLeft =
      ((l.filter (matchesUsage kHIDUsage_GD_SystemMenuLeft)).getLast?).elim 0
        elementCookieVal := by
  rw [getHIDCookies_some_eq]
  exact ⟨rfl, rfl, lastMatchCookie_eq_getLast _ _ _,
    lastMatchCookie_eq_getLast _ _ _⟩

/-- C3 counterexample: in a run where every OS call succeeds except
`allocQueue` (an OS-level queue allocation failure), the failure is reported
to standard error but the process does not terminate with a nonzero status:
`processQueue` returns, teardown proceeds, and `main` returns 0. -/
theorem queue_alloc_failure_completes_normally :
    "Failed to allocate event queue." ∈
      (setupAndRunModel worldQueueAllocFails).stderrMsgs ∧
    (setupAndRunModel worldQueueAllocFails).outcome = Outcome.completed := by
  decide

/-- C3 amended: device not found, `QueryInterface` failure, and plug-in
creation failure (surfacing as the "No HID." check) are each reported to
standard error and terminate the process with a nonzero status; queue
allocation failure is reported to standard error but the process continues
and exits with status 0. -/
theorem error_exit_policy_amended :
    (∀ w : OSWorld, w.hidServiceFound = false →
      setupAndRunModel w =
        { trace := [Op.locateDevice],
          stderrMsgs := ["Apple Infrared Remote not found."],
          outcome := Outcome.exited 1 }) ∧
    (∀ w : OSWorld, w.hidServiceFound = true → w.getClassErr = 0 →
      w.plugInCreateErr = 0 → w.queryInterfaceErr ≠ 0 →
      setupAndRunModel w =
        { trace := [Op.locateDevice],
          stderrMsgs := ["Failed to create device interface."],
          outcome := Outcome.exited EX_OSERR }) ∧
    (∀ w : OSWorld, w.hidServiceFound = true → w.getClassErr = 0 →
      w.plugInCreateErr ≠ 0 → w.releaseHIDErr = 0 →
      setupAndRunModel w =
        { trace := [Op.locateDevice, Op.resolveCookies],
          stderrMsgs := ["No HID."],
          outcome := Outcome.exited 1 }) ∧
    (∀ w : OSWorld, w.hidServiceFound = true → w.getClassErr = 0 →
      w.plugInCreateErr = 0 → w.queryInterfaceErr = 0 →
      w.copyElementsErr = 0 → w.releaseHIDErr = 0 → w.allocQueueOk = false →
      (setupAndRunModel w).outcome = Outcome.completed ∧
      "Failed to allocate event queue." ∈
        (setupAndRunModel w).stderrMsgs) := by
  refine ⟨?_, ?_, ?_, ?_⟩
  · intro w h
    simp [setupAndRunModel, h]
  · intro w h1 h2 h3 h4
    simp [setupAndRunModel, h1, h2, h3, h4]
  · intro w h1 h2 h3 h4
    simp [setupAndRunModel, h1, h2, h3, h4]
  · intro w h1 h2 h3 h4 h5 h6 h7
    simp [setupAndRunModel, doRunModel, processQueueModel,
      h1, h2, h3, h4, h5, h6, h7]

/-- C3 amended witness: one concrete world per scenario. -/
theorem error_exit_policy_amended_witness :
    setupAndRunModel { worldAllOk with hidServiceFound := false } =
      { trace := [Op.locateDevice],
        stderrMsgs := ["Apple Infrared Remote not found."],
        outcome := Outcome.exited 1 } ∧
    setupAndRunModel { worldAllOk with queryInterfaceErr := 1 } =
      { trace := [Op.locateDevice],
        stderrMsgs := ["Failed to create device interface."],
        outcome := Outcome.exited EX_OSERR } ∧
    setupAndRunModel { worldAllOk with plugInCreateErr := 1 } =
      { trace := [Op.locateDevice, Op.resolveCookies],
        stderrMsgs := ["No HID."],
        outcome := Outcome.exited 1 } ∧
    ((setupAndRunModel worldQueueAllocFails).outcome = Outcome.completed ∧
     "Failed to allocate event queue." ∈
       (setupAndRunModel worldQueueAllocFails).stderrMsgs) :=
  ⟨error_exit_policy_amended.1 _ rfl,
   error_exit_policy_amended.2.1 _ rfl rfl rfl (by decide),
   error_exit_policy_amended.2.2.1 _ rfl rfl (by decide) rfl,
   error_exit_policy_amended.2.2.2 _ rfl rfl rfl rfl rfl rfl rfl⟩

/-- C4 counterexample: in a fully successful run the trace is linear and in
the claimed order, but `openDevice`, `closeDevice` and `releaseDevice` each
occur twice, not once — `setupAndRun` opens the device and `doRun` opens it
again, and both close and release it on the way out. -/
theorem open_close_release_twice :
    (setupAndRunModel worldAllOk).trace =
      [Op.locateDevice, Op.resolveCookies, Op.openDevice, Op.openDevice,
       Op.registerCallback, Op.runEventLoop, Op.closeDevice, Op.releaseDevice,
       Op.closeDevice, Op.releaseDevice] ∧
    (setupAndRunModel worldAllOk).trace.count Op.openDevice = 2 ∧
    (setupAndRunModel worldAllOk).trace.count Op.closeDevice = 2 ∧
    (setupAndRunModel worldAllOk).trace.count Op.releaseDevice = 2 := by
  decide

/-- C4 amended: in every run in which all OS calls succeed, the control flow
is the linear sequence locate the device, resolve the cookies, open, register
the one queue callback, run the host event loop, then close and release —
with the open and the closing close/release pair each performed twice (once
by `setupAndRun`, once by `doRun`), locate/resolve/register/run-loop each
performed once, and the process completing normally. -/
theorem run_trace_amended (w : OSWorld) (h1 : w.hidServiceFound = true)
    (h2 : w.getClassErr = 0) (h3 : w.plugInCreateErr = 0)
    (h4 : w.queryInterfaceErr = 0) (h5 : w.copyElementsErr = 0)
    (h6 : w.releaseHIDErr = 0) (h7 : w.openErrOuter = 0)
    (h8 : w.openErrInner = 0) (h9 : w.allocQueueOk = true)
    (h10 : w.createAsyncSourceErr = 0) (h11 : w.setCalloutErr = 0) :
    (setupAndRunModel w).trace =
      [Op.locateDevice, Op.resolveCookies, Op.openDevice, Op.openDevice,
       Op.registerCallback, Op.runEventLoop, Op.closeDevice, Op.releaseDevice,
       Op.closeDevice, Op.releaseDevice] ∧
    (setupAndRunModel w).outcome = Outcome.completed := by
  simp [setupAndRunModel, doRunModel, processQueueModel,
    h1, h2, h3, h4, h5, h6, h7, h8, h9, h10, h11]

/-- C4 amended witness at the all-successful world. -/
theorem run_trace_amended_witness :
    (setupAndRunModel worldAllOk).trace =
      [Op.locateDevice, Op.resolveCookies, Op.openDevice, Op.openDevice,
       Op.registerCallback, Op.runEventLoop, Op.closeDevice, Op.releaseDevice,
       Op.closeDevice, Op.releaseDevice] ∧
    (setupAndRunModel worldAllOk).outcome = Outcome.completed :=
  run_trace_amended worldAllOk rfl rfl rfl rfl rfl rfl rfl rfl rfl rfl rfl

end Iremoted
